import Mathlib

/-!
# Verification of the tracking-api reconciliation engine

A shallow embedding, in Lean 4, of the core components of the
`tracking-api` repository: the retry executor (`src/shared/utils/retry.ts`),
the Correios carrier client (`src/services/correios.ts`), the token
single-flight cache (`correiosTokenService.ts`), the event differ
(`src/shared/utils/eventComparator.ts`), the notification publisher
(`src/infrastructure/services/EmailEventPublisher.ts`) and the per-record
logic of the reconciliation job (`src/jobs`).

JavaScript promises/exceptions are modelled with `Except`; thrown values
with the inductive `JSError` (a `ClassifiedError` or any other value);
clock instants and delays with `Nat`; the JS run-to-completion semantics
of the synchronous prefix of `getValidToken` with an explicit state
machine over `TokenState`.
-/

namespace TrackingApi

/-- JS `String.prototype.includes`: substring containment. -/
def strIncludes (s pat : String) : Bool := decide (pat.data <:+: s.data)

/-- JS `String.prototype.trim` (whitespace stripped from both ends). -/
def jsTrim (s : String) : String :=
  String.mk (((s.data.dropWhile Char.isWhitespace).reverse.dropWhile Char.isWhitespace).reverse)

/-- JS truthiness of an optional string: `undefined` and `""` are falsy. -/
def strOpt (o : Option String) : Option String :=
  match o with
  | some s => if s = "" then none else some s
  | none => none

/-! ## Error taxonomy (`src/shared/utils/retry.ts`) -/

/-- The `ErrorType` enum from `retry.ts`: classification of errors. -/
inductive ErrorType
  | TEMPORARY
  | PERMANENT
deriving DecidableEq, Repr

/-- A thrown JS value as seen by the retry/tracking code: a `ClassifiedError`
(with its `type` and `message`), any other `Error` (just a message), or a
non-`Error` value such as `undefined` (thrown by `throw lastError!` when the
retry loop never ran). -/
inductive JSError
  | classified (type : ErrorType) (message : String)
  | plain (message : String)
  | undef
deriving DecidableEq, Repr

/-- Models `error instanceof ClassifiedError && error.type === ErrorType.PERMANENT`. -/
def JSError.isPermanentClassified : JSError → Bool
  | .classified .PERMANENT _ => true
  | _ => false

/-- Models `error instanceof ClassifiedError && error.type === ErrorType.TEMPORARY`. -/
def JSError.isTemporaryClassified : JSError → Bool
  | .classified .TEMPORARY _ => true
  | _ => false

/-- Models `error instanceof Error ? error.message : 'Erro desconhecido'`. -/
def JSError.jsMessage : JSError → String
  | .classified _ m => m
  | .plain m => m
  | .undef => "Erro desconhecido"

instance : DecidableEq (Except JSError Nat) := fun a b => by
  cases a <;> cases b <;>
    first
      | exact isFalse (fun h => Except.noConfusion h)
      | exact decidable_of_iff _ ⟨fun h => by rw [h], fun h => Except.noConfusion h id⟩

/-! ## Retry executor (`retryWithBackoff`, `src/shared/utils/retry.ts` lines 59-107)

The operation is modelled as a function from the attempt number (1-based)
to the attempt's outcome.  The embedding returns, besides the final
outcome, the number of times the operation was invoked and the list of
delays slept between consecutive attempts, so that the retry policy's
observable behaviour is fully captured. -/

/-- The retry loop body: `attempt` is the current 1-based attempt number,
the second argument is the number of loop iterations still allowed
(`maxAttempts - attempt + 1`).  When it reaches `0` the loop exits and the
function throws `lastError!`, which is `undefined` (only reachable when
`maxAttempts < 1`). -/
def retryGo {α : Type} (op : Nat → Except JSError α) (initialDelay maxDelay backoffMultiplier : Nat) :
    Nat → Nat → Except JSError α × Nat × List Nat
  | _, 0 => (Except.error JSError.undef, 0, [])
  | attempt, rem + 1 =>
    match op attempt with
    | Except.ok v => (Except.ok v, 1, [])
    | Except.error e =>
      if e.isPermanentClassified then (Except.error e, 1, [])
      else if rem = 0 then (Except.error e, 1, [])
      else
        let d := min (initialDelay * backoffMultiplier ^ (attempt - 1)) maxDelay
        let r := retryGo op initialDelay maxDelay backoffMultiplier (attempt + 1) rem
        (r.1, r.2.1 + 1, d :: r.2.2)

/-- Models `retryWithBackoff(fn, options)`: result, number of invocations of `fn`,
and the delays slept between attempts. -/
def retryWithBackoff {α : Type} (op : Nat → Except JSError α)
    (maxAttempts initialDelay maxDelay backoffMultiplier : Nat) :
    Except JSError α × Nat × List Nat :=
  retryGo op initialDelay maxDelay backoffMultiplier 1 maxAttempts

/-! ## Token single-flight cache (`CorreiosTokenService.getValidToken`)

JS is single-threaded: the synchronous prefix of `getValidToken` (the cache
check, the `tokenPromise` check, and the assignment of a fresh promise to
`this.tokenPromise`) runs atomically between any two `await` points.  A burst
of concurrent callers arriving during a cache miss is therefore a sequence of
atomic executions of that prefix against the shared service state; the model
below embeds that prefix as a step function and a burst as its iteration. -/

/-- The fields of `CorreiosTokenService` read by `getValidToken`:
`tokenCache` (token value and absolute expiry in ms) and `tokenPromise`
(identifier of the pending acquisition promise, if one is in flight). -/
structure TokenState where
  tokenCache : Option (String × Nat)
  tokenPromise : Option Nat
deriving DecidableEq, Repr

/-- What a single caller of `getValidToken` observes: a cache hit, attachment
to an already-in-flight acquisition promise, or the start of a new upstream
acquisition (identified by the fresh promise id it created). -/
inductive TokenCallResult
  | cached (token : String)
  | awaited (pid : Nat)
  | started (pid : Nat)
deriving DecidableEq, Repr

/-- The synchronous prefix of `getValidToken` (`correiosTokenService.ts`
lines 25-45): return the cached token if unexpired; otherwise share the
pending promise if one exists; otherwise store a fresh in-flight promise
(`freshPid`) and start the upstream acquisition. -/
def getValidToken (now freshPid : Nat) (s : TokenState) : TokenCallResult × TokenState :=
  match s.tokenCache with
  | some (tok, exp) =>
    if now < exp then (TokenCallResult.cached tok, s)
    else
      match s.tokenPromise with
      | some pid => (TokenCallResult.awaited pid, s)
      | none => (TokenCallResult.started freshPid, { s with tokenPromise := some freshPid })
  | none =>
    match s.tokenPromise with
    | some pid => (TokenCallResult.awaited pid, s)
    | none => (TokenCallResult.started freshPid, { s with tokenPromise := some freshPid })

/-- Holds when `this.tokenCache` is absent or expired (the JS condition
`this.tokenCache && this.tokenCache.expiresAt > new Date()` is falsy). -/
def cacheMiss (now : Nat) (s : TokenState) : Bool :=
  match s.tokenCache with
  | some (_, exp) => if now < exp then false else true
  | none => true

/-- A burst of concurrent callers of `getValidToken`, each running the
synchronous prefix in turn with no acquisition completing in between;
`pids` lists the fresh promise id each caller would create. -/
def runArrivals (now : Nat) (pids : List Nat) (s : TokenState) :
    List TokenCallResult × TokenState :=
  match pids with
  | [] => ([], s)
  | p :: ps =>
    let r := getValidToken now p s
    let rest := runArrivals now ps r.2
    (r.1 :: rest.1, rest.2)

/-- Number of upstream authentication requests issued by a burst. -/
def upstreamCalls (rs : List TokenCallResult) : Nat :=
  (rs.filter fun r => match r with | TokenCallResult.started _ => true | _ => false).length

/-! ## Carrier data model (`correios.ts` interfaces, `TrackingTypes.ts`) -/

/-- Postal-unit address (`endereco` in the Correios API response and
`unitAddress` in `TrackingEvent`). -/
structure Endereco where
  cep : Option String := none
  logradouro : Option String := none
  numero : Option String := none
  bairro : Option String := none
  cidade : Option String := none
  uf : Option String := none
deriving DecidableEq, Repr

/-- Postal unit (`unidade` / `unidadeDestino`). -/
structure Unidade where
  tipo : Option String := none
  endereco : Option Endereco := none
deriving DecidableEq, Repr

/-- A raw carrier event (`eventos[i]` of the Correios API response). -/
structure Evento where
  descricao : String
  dtHrCriado : String
  detalhe : Option String := none
  unidade : Option Unidade := none
  unidadeDestino : Option Unidade := none
deriving DecidableEq, Repr

/-- One object of the Correios API response. -/
structure CorreiosObjeto where
  codObjeto : String := ""
  dtPrevista : Option String := none
  mensagem : Option String := none
  eventos : Option (List Evento) := none
deriving DecidableEq, Repr

/-- The Correios API response (`CorreiosApiResponse`). -/
structure CorreiosApiResponse where
  versao : String := ""
  quantidade : Nat := 0
  objetos : List CorreiosObjeto
  tipoResultado : String := ""
deriving DecidableEq, Repr

/-- The `TrackingEvent` interface from `domain/types/TrackingTypes.ts`: the normalized event
stored with a shipment record. -/
structure TrackingEvent where
  date : String
  location : String
  status : String
  description : String
  detail : Option String := none
  unitType : Option String := none
  originUnit : Option String := none
  destinationUnit : Option String := none
  unitAddress : Option Endereco := none
deriving DecidableEq, Repr

/-- The `CorreiosResponse` interface: status, normalized events, optional expected date. -/
structure CorreiosResponse where
  status : String
  events : List TrackingEvent
  dtPrevista : Option String := none
deriving DecidableEq, Repr

/-! ## Event mapping (`trackCorreios`, `correios.ts` lines 181-251) -/

/-- The `location` of a mapped event: `cidade/uf` when both are truthy,
else whichever is truthy, else `'Local não informado'`. -/
def eventLocation (ev : Evento) : String :=
  match ev.unidade with
  | some u =>
    match u.endereco with
    | some e =>
      match strOpt e.cidade, strOpt e.uf with
      | some c, some f => c ++ "/" ++ f
      | none, some f => f
      | some c, none => c
      | none, none => "Local não informado"
    | none => "Local não informado"
  | none => "Local não informado"

/-- Models `partes.filter(Boolean).join(', ')` over `[tipo, cidade-uf part]`: the
origin/destination unit descriptor composition. -/
def composeUnitDescriptor (u : Unidade) : String :=
  let partes : List (Option String) :=
    [u.tipo] ++
      (match u.endereco with
       | some e =>
         match strOpt e.cidade, strOpt e.uf with
         | some c, some f => [some (c ++ " - " ++ f)]
         | some c, none => [some c]
         | none, some f => [some f]
         | none, none => []
       | none => [])
  String.intercalate ", " ((partes.filterMap id).filter fun s => s != "")

/-- Conversion of one raw carrier event into a `TrackingEvent`. -/
def mapEvento (ev : Evento) : TrackingEvent :=
  { description := ev.descricao
    date := ev.dtHrCriado
    status := ev.descricao
    location := eventLocation ev
    detail := ev.detalhe
    unitType := ev.unidade.bind fun u => u.tipo
    originUnit := ev.unidade.map composeUnitDescriptor
    destinationUnit := ev.unidadeDestino.map composeUnitDescriptor
    unitAddress := ev.unidade.bind fun u => u.endereco }

/-! ## Status classification (`trackCorreios`, `correios.ts` lines 253-356)

The ordered if/else chain over the most recent event's description,
most-specific-to-least-specific; the default (`'Objeto em transferência -
por favor aguarde'`) stands when no pattern matches. -/

/-- The status-classification chain. -/
def determineStatus (description : String) : String :=
  if strIncludes description "Objeto entregue ao destinatário" then
    "Objeto entregue ao destinatário"
  else if strIncludes description "Objeto entregue ao remetente" then
    "Objeto entregue ao remetente"
  else if strIncludes description "Objeto entregue na Caixa de Correios Inteligente" then
    "Objeto entregue na Caixa de Correios Inteligente"
  else if strIncludes description "Objeto não entregue - prazo de retirada encerrado" then
    "Objeto não entregue - prazo de retirada encerrado"
  else if strIncludes description "Objeto não entregue - carteiro não atendido" then
    "Objeto não entregue - carteiro não atendido"
  else if strIncludes description "Objeto não entregue - endereço insuficiente" then
    "Objeto não entregue - endereço insuficiente"
  else if strIncludes description "Objeto não entregue - endereço incorreto" then
    "Objeto não entregue - endereço incorreto"
  else if strIncludes description "Tentativa de entrega não efetuada" then
    "Tentativa de entrega não efetuada"
  else if strIncludes description "Objeto não entregue" then
    "Objeto não entregue"
  else if strIncludes description "Objeto saiu para entrega ao destinatário" then
    "Objeto saiu para entrega ao destinatário"
  else if strIncludes description "Objeto saiu para entrega ao remetente" then
    "Objeto saiu para entrega ao remetente"
  else if strIncludes description "Saída para entrega cancelada" then
    "Saída para entrega cancelada"
  else if strIncludes description "Objeto encaminhado para retirada no endereço indicado" then
    "Objeto encaminhado para retirada no endereço indicado"
  else if strIncludes description "Objeto aguardando retirada no endereço indicado" then
    "Objeto aguardando retirada no endereço indicado"
  else if strIncludes description "Direcionado para entrega em unidade dos Correios a pedido do cliente" then
    "Direcionado para entrega em unidade dos Correios a pedido do cliente"
  else if strIncludes description "Objeto em correção de rota" then
    "Objeto em correção de rota"
  else if strIncludes description "Objeto ainda não chegou à unidade" then
    "Objeto ainda não chegou à unidade"
  else if strIncludes description "Objeto em transferência" then
    "Objeto em transferência - por favor aguarde"
  else if strIncludes description "Objeto postado após o horário limite da unidade" then
    "Objeto postado após o horário limite da unidade"
  else if strIncludes description "Objeto postado" then
    "Objeto postado"
  else if strIncludes description "Objeto coletado" then
    "Objeto coletado"
  else if strIncludes description "Carteiro saiu para coleta do objeto" then
    "Carteiro saiu para coleta do objeto"
  else if strIncludes description "Etiqueta cancelada pelo emissor" then
    "Etiqueta cancelada pelo emissor"
  else if strIncludes description "Etiqueta expirada" then
    "Etiqueta expirada"
  else if strIncludes description "Etiqueta emitida" then
    "Etiqueta emitida"
  else if strIncludes description "Inconsistências no endereçamento do objeto" then
    "Inconsistências no endereçamento do objeto"
  else if strIncludes description "Favor desconsiderar a informação anterior" then
    "Favor desconsiderar a informação anterior"
  else if strIncludes description "Solicitação de suspensão de entrega ao destinatário" then
    "Solicitação de suspensão de entrega ao destinatário"
  else if strIncludes description "Objeto será devolvido por solicitação do contratante/remetente" then
    "Objeto será devolvido por solicitação do contratante/remetente"
  else if strIncludes description "Cancelado" then
    "Cancelado"
  else if strIncludes description "Devolvido" then
    "Devolvido"
  else
    "Objeto em transferência - por favor aguarde"

/-- The ordered pattern list of the chain (used to state "no pattern
matches"). -/
def statusPatterns : List String :=
  ["Objeto entregue ao destinatário",
   "Objeto entregue ao remetente",
   "Objeto entregue na Caixa de Correios Inteligente",
   "Objeto não entregue - prazo de retirada encerrado",
   "Objeto não entregue - carteiro não atendido",
   "Objeto não entregue - endereço insuficiente",
   "Objeto não entregue - endereço incorreto",
   "Tentativa de entrega não efetuada",
   "Objeto não entregue",
   "Objeto saiu para entrega ao destinatário",
   "Objeto saiu para entrega ao remetente",
   "Saída para entrega cancelada",
   "Objeto encaminhado para retirada no endereço indicado",
   "Objeto aguardando retirada no endereço indicado",
   "Direcionado para entrega em unidade dos Correios a pedido do cliente",
   "Objeto em correção de rota",
   "Objeto ainda não chegou à unidade",
   "Objeto em transferência",
   "Objeto postado após o horário limite da unidade",
   "Objeto postado",
   "Objeto coletado",
   "Carteiro saiu para coleta do objeto",
   "Etiqueta cancelada pelo emissor",
   "Etiqueta expirada",
   "Etiqueta emitida",
   "Inconsistências no endereçamento do objeto",
   "Favor desconsiderar a informação anterior",
   "Solicitação de suspensão de entrega ao destinatário",
   "Objeto será devolvido por solicitação do contratante/remetente",
   "Cancelado",
   "Devolvido"]

/-! ## The carrier client (`trackCorreios`, `correios.ts` lines 133-398) -/

/-- The single synthesized event of the `"Erro na consulta"` result. -/
def lookupErrorEvent (nowIso : String) (e : JSError) : TrackingEvent :=
  { description := "Erro ao consultar os Correios: " ++ e.jsMessage ++
      ". Verifique o código de rastreamento."
    date := nowIso
    status := "Erro"
    location := "Sistema" }

/-- The `try` block of `trackCorreios` applied to the outcome of
`retryWithBackoff`: response normalization (not-found message, empty event
list) and status classification.  `nowIso` is `new Date().toISOString()`. -/
def trackCorreiosTry (nowIso : String) (retried : Except JSError CorreiosApiResponse) :
    Except JSError CorreiosResponse :=
  match retried with
  | Except.error e => Except.error e
  | Except.ok trackingData =>
    match trackingData.objetos with
    | [] => Except.error (JSError.plain "Objeto não encontrado")
    | objeto :: _ =>
      match strOpt objeto.mensagem with
      | some mensagem =>
        Except.ok
          { status := "Objeto não encontrado"
            events := [{ description := mensagem
                         date := nowIso
                         status := "Não encontrado"
                         location := "Correios" }] }
      | none =>
        let eventos := objeto.eventos.getD []
        if eventos.isEmpty then
          Except.ok { status := "Etiqueta emitida", events := [], dtPrevista := objeto.dtPrevista }
        else
          let events := eventos.map mapEvento
          let status :=
            match events with
            | [] => "Objeto em transferência - por favor aguarde"
            | lastEvent :: _ => determineStatus lastEvent.description
          Except.ok { status := status, events := events, dtPrevista := objeto.dtPrevista }

/-- The `catch` block of `trackCorreios`: rethrow TEMPORARY classified errors;
turn every other failure into the storable `"Erro na consulta"` result with a
single explanatory event. -/
def trackCorreiosCatch (nowIso : String) (tryResult : Except JSError CorreiosResponse) :
    Except JSError CorreiosResponse :=
  match tryResult with
  | Except.ok r => Except.ok r
  | Except.error e =>
    if e.isTemporaryClassified then Except.error e
    else
      Except.ok { status := "Erro na consulta", events := [lookupErrorEvent nowIso e] }

/-- Models `trackCorreios(code)`: run the lookup through `retryWithBackoff`
(`maxAttempts 3, initialDelay 1000, backoffMultiplier 2`, default
`maxDelay 10000`), then normalize; `op` is the per-attempt outcome of
`fetchTrackingData(code)`. -/
def trackCorreios (nowIso : String) (op : Nat → Except JSError CorreiosApiResponse) :
    Except JSError CorreiosResponse :=
  trackCorreiosCatch nowIso (trackCorreiosTry nowIso (retryWithBackoff op 3 1000 10000 2).1)

/-- Concrete not-found object used by the C9 witness. -/
def c9NotFoundObjeto : CorreiosObjeto :=
  { codObjeto := "AA123456789BR"
    mensagem := some "Objeto não encontrado na base de dados dos Correios." }

/-- Concrete event-less object used by the C9 witness. -/
def c9EmptyObjeto : CorreiosObjeto :=
  { codObjeto := "AA123456789BR", dtPrevista := some "2025-01-09" }

/-- A description containing both the first-checked delivered pattern and the
pickup-window-expired pattern. -/
def c3BadDescription : String :=
  "Objeto entregue ao destinatário - anula: Objeto não entregue - prazo de retirada encerrado"

/-! ## Event differ (`eventComparator.ts`)

`normDate` models `d => new Date(d).toISOString()`, the ISO re-normalization
of the event's date string; every theorem below holds for an arbitrary
normalization function. -/

/-- Models `createEventSignature(event)`: the pipe-joined signature over the seven
normalized fields. -/
def createEventSignature (normDate : String → String) (e : TrackingEvent) : String :=
  jsTrim e.description ++ "|" ++ normDate e.date ++ "|" ++ jsTrim e.location ++ "|" ++
    jsTrim (e.detail.getD "") ++ "|" ++ jsTrim (e.unitType.getD "") ++ "|" ++
    jsTrim (e.originUnit.getD "") ++ "|" ++ jsTrim (e.destinationUnit.getD "")

/-- Models `hasNewEvents(oldEvents, newEvents)` (`eventComparator.ts` lines 266-292). -/
def hasNewEvents (normDate : String → String) (oldEvents newEvents : List TrackingEvent) :
    Bool :=
  if oldEvents.length ≠ newEvents.length then true
  else if oldEvents.length = 0 ∧ newEvents.length = 0 then false
  else
    let oldEventsSet := oldEvents.map (createEventSignature normDate)
    newEvents.any fun e => !(oldEventsSet.contains (createEventSignature normDate e))

/-- Sample event (posted) for the C5 counterexample and witness. -/
def c5EventA : TrackingEvent :=
  { description := "Objeto postado"
    date := "2025-01-01T10:00:00.000Z"
    status := "Objeto postado"
    location := "Curitiba/PR" }

/-- Sample event (in transit) for the C5 counterexample and witness. -/
def c5EventB : TrackingEvent :=
  { description := "Objeto em transferência - por favor aguarde"
    date := "2025-01-02T10:00:00.000Z"
    status := "Objeto em transferência - por favor aguarde"
    location := "Curitiba/PR" }

/-! ## Reconciliation job, per-record step (`processTrackings`, jobs file
lines 110-178) -/

/-- What the loop body does to a record's persisted state. -/
inductive RecordAction
  | updated (newStatus : String) (newEvents : List TrackingEvent) (dtExpected : Option String)
  | unchanged
  | skippedTemporary
  | failedPermanent
deriving DecidableEq, Repr

/-- One iteration of the per-record loop, as a function of the outcome of
`trackCorreios` for that record: update on a changed status or new events,
skip silently on a TEMPORARY error, count every other error as a
permanent-class failure.  Only `updated` touches the persisted record (the
`updateTrackingStatusUseCase.execute` call). -/
def processRecord (normDate : String → String) (currentStatus : String)
    (events : List TrackingEvent) (lookup : Except JSError CorreiosResponse) : RecordAction :=
  match lookup with
  | Except.ok trackingData =>
    let statusChanged := trackingData.status != currentStatus
    let eventsChanged := hasNewEvents normDate events trackingData.events
    if statusChanged || eventsChanged then
      RecordAction.updated trackingData.status trackingData.events trackingData.dtPrevista
    else RecordAction.unchanged
  | Except.error e =>
    if e.isTemporaryClassified then RecordAction.skippedTemporary
    else RecordAction.failedPermanent

/-- Whether an action writes to the record's persisted state. -/
def mutatesPersistedState : RecordAction → Bool
  | RecordAction.updated _ _ _ => true
  | _ => false

/-! ## Consecutive-failure backoff (`processTrackings`, jobs file lines 52-57
and 150-178) -/

/-- The classified outcome of one record's processing, as seen by the
`catch`/success bookkeeping of the loop. -/
inductive RecordOutcome
  | success
  | tempError
  | permError
deriving DecidableEq, Repr

/-- The `MAX_CONSECUTIVE_FAILURES` constant (jobs file line 56). -/
def MAX_CONSECUTIVE_FAILURES : Nat := 3

/-- The `FAILURE_WAIT_TIME` base wait in ms (jobs file line 57). -/
def FAILURE_WAIT_TIME : Nat := 60000

/-- Effect of one record's outcome on the `consecutiveFailures` counter,
together with the inter-record pause (in ms) taken before the next record,
if any. -/
def failureStep (consecutiveFailures : Nat) (o : RecordOutcome) : Nat × Option Nat :=
  match o with
  | RecordOutcome.success => (0, none)
  | RecordOutcome.tempError => (consecutiveFailures, none)
  | RecordOutcome.permError =>
    let c := consecutiveFailures + 1
    if MAX_CONSECUTIVE_FAILURES ≤ c then
      (c, some (FAILURE_WAIT_TIME * min (c - MAX_CONSECUTIVE_FAILURES + 1) 5))
    else (c, none)

/-- The counter/pause bookkeeping over a whole batch: final counter value and
the per-record pauses. -/
def runOutcomes (c : Nat) : List RecordOutcome → Nat × List (Option Nat)
  | [] => (c, [])
  | o :: os =>
    let s := failureStep c o
    let rest := runOutcomes s.1 os
    (rest.1, s.2 :: rest.2)

/-! ## Notification policy (`EmailEventPublisher.ts`) -/

/-- The `TrackingStatus` string enum (`domain/types/TrackingTypes.ts`),
including the synthetic `ERRO_CONSULTA`. -/
inductive TrackingStatus
  | ETIQUETA_EMITIDA
  | ETIQUETA_CANCELADA
  | ETIQUETA_EXPIRADA
  | CARTEIRO_SAIU_COLETA
  | OBJETO_COLETADO
  | POSTADO
  | POSTADO_APOS_HORARIO_LIMITE
  | EM_TRANSITO
  | CORRECAO_ROTA
  | OBJETO_NAO_CHEGOU_UNIDADE
  | SAIU_PARA_ENTREGA
  | SAIU_PARA_ENTREGA_REMETENTE
  | AGUARDANDO_RETIRADA
  | ENCAMINHADO_RETIRADA
  | DIRECIONADO_UNIDADE
  | NAO_ENTREGUE
  | NAO_ENTREGUE_ENDERECO_INCORRETO
  | NAO_ENTREGUE_ENDERECO_INSUFICIENTE
  | NAO_ENTREGUE_CARTEIRO_NAO_ATENDIDO
  | NAO_ENTREGUE_PRAZO_ENCERRADO
  | TENTATIVA_ENTREGA_NAO_EFETUADA
  | INCONSISTENCIAS_ENDERECAMENTO
  | DESCONSIDERAR_INFORMACAO
  | SUSPENSAO_ENTREGA
  | ERRO_CONSULTA
  | ENTREGA_CANCELADA
  | CANCELADO
  | DEVOLVIDO
  | OBJETO_SERA_DEVOLVIDO
  | ENTREGUE
  | ENTREGUE_REMETENTE
  | ENTREGUE_CAIXA_INTELIGENTE
deriving DecidableEq, Repr

/-- The string value of each `TrackingStatus` member. -/
def TrackingStatus.text : TrackingStatus → String
  | ETIQUETA_EMITIDA => "Etiqueta emitida"
  | ETIQUETA_CANCELADA => "Etiqueta cancelada pelo emissor"
  | ETIQUETA_EXPIRADA => "Etiqueta expirada"
  | CARTEIRO_SAIU_COLETA => "Carteiro saiu para coleta do objeto"
  | OBJETO_COLETADO => "Objeto coletado"
  | POSTADO => "Objeto postado"
  | POSTADO_APOS_HORARIO_LIMITE => "Objeto postado após o horário limite da unidade"
  | EM_TRANSITO => "Objeto em transferência - por favor aguarde"
  | CORRECAO_ROTA => "Objeto em correção de rota"
  | OBJETO_NAO_CHEGOU_UNIDADE => "Objeto ainda não chegou à unidade"
  | SAIU_PARA_ENTREGA => "Objeto saiu para entrega ao destinatário"
  | SAIU_PARA_ENTREGA_REMETENTE => "Objeto saiu para entrega ao remetente"
  | AGUARDANDO_RETIRADA => "Objeto aguardando retirada no endereço indicado"
  | ENCAMINHADO_RETIRADA => "Objeto encaminhado para retirada no endereço indicado"
  | DIRECIONADO_UNIDADE => "Direcionado para entrega em unidade dos Correios a pedido do cliente"
  | NAO_ENTREGUE => "Objeto não entregue"
  | NAO_ENTREGUE_ENDERECO_INCORRETO => "Objeto não entregue - endereço incorreto"
  | NAO_ENTREGUE_ENDERECO_INSUFICIENTE => "Objeto não entregue - endereço insuficiente"
  | NAO_ENTREGUE_CARTEIRO_NAO_ATENDIDO => "Objeto não entregue - carteiro não atendido"
  | NAO_ENTREGUE_PRAZO_ENCERRADO => "Objeto não entregue - prazo de retirada encerrado"
  | TENTATIVA_ENTREGA_NAO_EFETUADA => "Tentativa de entrega não efetuada"
  | INCONSISTENCIAS_ENDERECAMENTO => "Inconsistências no endereçamento do objeto"
  | DESCONSIDERAR_INFORMACAO => "Favor desconsiderar a informação anterior"
  | SUSPENSAO_ENTREGA => "Solicitação de suspensão de entrega ao destinatário"
  | ERRO_CONSULTA => "Erro na consulta"
  | ENTREGA_CANCELADA => "Saída para entrega cancelada"
  | CANCELADO => "Cancelado"
  | DEVOLVIDO => "Devolvido"
  | OBJETO_SERA_DEVOLVIDO => "Objeto será devolvido por solicitação do contratante/remetente"
  | ENTREGUE => "Objeto entregue ao destinatário"
  | ENTREGUE_REMETENTE => "Objeto entregue ao remetente"
  | ENTREGUE_CAIXA_INTELIGENTE => "Objeto entregue na Caixa de Correios Inteligente"

/-- The `DeliveryChannel` enum from `domain/types/TrackingTypes.ts`. -/
inductive DeliveryChannel
  | DELIVERY
  | PICKUP_IN_POINT
deriving DecidableEq, Repr

/-- The `SILENT_STATUSES` list (`EmailEventPublisher.ts` lines 37-45): statuses that
must never trigger a customer email. -/
def SILENT_STATUSES : List String :=
  [TrackingStatus.DESCONSIDERAR_INFORMACAO.text,
   TrackingStatus.OBJETO_SERA_DEVOLVIDO.text,
   TrackingStatus.ETIQUETA_EXPIRADA.text,
   TrackingStatus.ENTREGUE_REMETENTE.text,
   TrackingStatus.SUSPENSAO_ENTREGA.text,
   TrackingStatus.OBJETO_NAO_CHEGOU_UNIDADE.text,
   TrackingStatus.CARTEIRO_SAIU_COLETA.text]

/-- The notification decision of `EmailEventPublisher.publish` (lines 60-72):
whether `sendTrackingEmail` is invoked for a status-change event with the
given delivery channel and new status. -/
def publishSendsEmail (deliveryChannel : DeliveryChannel) (newStatus : TrackingStatus) : Bool :=
  if deliveryChannel = DeliveryChannel.PICKUP_IN_POINT then false
  else if SILENT_STATUSES.contains newStatus.text then false
  else true

/-! ## Signature frame (C10) -/

/-- Two events agree on the seven normalized fields the signature is built
from (description, date, location, detail, unitType, originUnit,
destinationUnit) — saying nothing about `status` or `unitAddress`. -/
def sevenFieldsAgree (normDate : String → String) (a b : TrackingEvent) : Prop :=
  jsTrim a.description = jsTrim b.description ∧
  normDate a.date = normDate b.date ∧
  jsTrim a.location = jsTrim b.location ∧
  jsTrim (a.detail.getD "") = jsTrim (b.detail.getD "") ∧
  jsTrim (a.unitType.getD "") = jsTrim (b.unitType.getD "") ∧
  jsTrim (a.originUnit.getD "") = jsTrim (b.originUnit.getD "") ∧
  jsTrim (a.destinationUnit.getD "") = jsTrim (b.destinationUnit.getD "")

/-- Event identical to `c5EventA` except for its `status` copy and a
structured `unitAddress` — fields outside the signature. -/
def c10EventA : TrackingEvent :=
  { description := "Objeto postado"
    date := "2025-01-01T10:00:00.000Z"
    status := "outro status copiado"
    location := "Curitiba/PR"
    unitAddress := some { cidade := some "Curitiba", uf := some "PR" } }

/-! ### Retry executor lemmas -/

/-- When every attempt fails with a non-PERMANENT error, the loop starting at
attempt `a` with `r + 1` allowed iterations performs all of them, ends with the
last attempt's error, and sleeps the exponential-backoff delays in between. -/
theorem retryGo_allFail {α : Type} (op : Nat → Except JSError α) (errAt : Nat → JSError)
    (i M b : Nat) (hop : ∀ k, op k = Except.error (errAt k))
    (hnp : ∀ k, (errAt k).isPermanentClassified = false) :
    ∀ (r a : Nat), 1 ≤ a →
      retryGo op i M b a (r + 1) =
        (Except.error (errAt (a + r)), r + 1,
          (List.range r).map (fun j => min (i * b ^ (a - 1 + j)) M)) := by
  intro r
  induction r with
  | zero =>
    intro a _
    simp [retryGo, hop a, hnp a]
  | succ n ih =>
    intro a ha
    have ih' := ih (a + 1) (by omega)
    have h1 : a + 1 + n = a + (n + 1) := by omega
    have h2 : (List.range (n + 1)).map (fun j => min (i * b ^ (a - 1 + j)) M)
        = min (i * b ^ (a - 1)) M :: (List.range n).map (fun j => min (i * b ^ (a + j)) M) := by
      rw [List.range_succ_eq_map, List.map_cons, List.map_map]
      simp only [Nat.add_zero]
      congr 1
      apply List.map_congr_left
      intro j _
      simp only [Function.comp_apply, Nat.succ_eq_add_one]
      have hx : a - 1 + (j + 1) = a + j := by omega
      rw [hx]
    rw [retryGo, hop a]
    simp only [hnp a, Bool.false_eq_true, if_false, Nat.succ_ne_zero, ih', Nat.add_sub_cancel]
    rw [h1, h2]

/-- If attempts `a, a+1, ...` fail with non-PERMANENT errors until attempt `j`
succeeds (with `a ≤ j ≤ a + r`), the loop returns the success value after
exactly `j - a + 1` invocations. -/
theorem retryGo_firstSuccess {α : Type} (op : Nat → Except JSError α) (errAt : Nat → JSError)
    (v : α) (i M b : Nat) :
    ∀ (r a j : Nat), 1 ≤ a → a ≤ j → j ≤ a + r →
      (∀ k, k < j → op k = Except.error (errAt k)) →
      (∀ k, k < j → (errAt k).isPermanentClassified = false) →
      op j = Except.ok v →
      retryGo op i M b a (r + 1) =
        (Except.ok v, j - a + 1, (List.range (j - a)).map (fun t => min (i * b ^ (a - 1 + t)) M)) := by
  intro r
  induction r with
  | zero =>
    intro a j ha haj hja hop hnp hok
    have : j = a := by omega
    subst this
    simp [retryGo, hok]
  | succ n ih =>
    intro a j ha haj hja hop hnp hok
    by_cases hEq : j = a
    · subst hEq
      simp [retryGo, hok]
    · have haj' : a < j := by omega
      have ih' := ih (a + 1) j (by omega) (by omega) (by omega) hop hnp hok
      have hjsub : j - a = (j - (a + 1)) + 1 := by omega
      have h2 : (List.range (j - a)).map (fun t => min (i * b ^ (a - 1 + t)) M)
          = min (i * b ^ (a - 1)) M ::
              (List.range (j - (a + 1))).map (fun t => min (i * b ^ (a + t)) M) := by
        rw [hjsub, List.range_succ_eq_map, List.map_cons, List.map_map]
        simp only [Nat.add_zero]
        congr 1
        apply List.map_congr_left
        intro t _
        simp only [Function.comp_apply, Nat.succ_eq_add_one]
        have hx : a - 1 + (t + 1) = a + t := by omega
        rw [hx]
      have h3 : j - (a + 1) + 1 + 1 = j - a + 1 := by omega
      rw [retryGo, hop a haj']
      simp only [hnp a haj', Bool.false_eq_true, if_false, Nat.succ_ne_zero, ih',
        Nat.add_sub_cancel]
      rw [h2, h3]

/-- C4 (corrected: the claim requires `maxAttempts ≥ 1`; see
`C4_retryWithBackoff_counterexample`).  `retryWithBackoff` with `maxAttempts ≥ 1`:
(1) an operation that always fails with a PERMANENT `ClassifiedError` is invoked
exactly once and that error is rethrown; (2) an operation that always fails with
a non-PERMANENT error is invoked exactly `maxAttempts` times, the last error is
rethrown, and the delays slept between consecutive attempts are
`min(initialDelay * backoffMultiplier^(attempt-1), maxDelay)`; (3) as soon as an
attempt succeeds, its result is returned with no further invocations. -/
theorem C4_retryWithBackoff_behaviour {α : Type} :
    (∀ (op : Nat → Except JSError α) (e : JSError) (maxA i M b : Nat),
       1 ≤ maxA → op 1 = Except.error e → e.isPermanentClassified = true →
       retryWithBackoff op maxA i M b = (Except.error e, 1, [])) ∧
    (∀ (op : Nat → Except JSError α) (errAt : Nat → JSError) (maxA i M b : Nat),
       1 ≤ maxA → (∀ k, op k = Except.error (errAt k)) →
       (∀ k, (errAt k).isPermanentClassified = false) →
       retryWithBackoff op maxA i M b =
         (Except.error (errAt maxA), maxA,
           (List.range (maxA - 1)).map (fun j => min (i * b ^ j) M))) ∧
    (∀ (op : Nat → Except JSError α) (errAt : Nat → JSError) (v : α) (maxA i M b j : Nat),
       1 ≤ j → j ≤ maxA →
       (∀ k, k < j → op k = Except.error (errAt k)) →
       (∀ k, k < j → (errAt k).isPermanentClassified = false) →
       op j = Except.ok v →
       retryWithBackoff op maxA i M b =
         (Except.ok v, j, (List.range (j - 1)).map (fun t => min (i * b ^ t) M))) := by
  refine ⟨?_, ?_, ?_⟩
  · intro op e maxA i M b hmax hop hperm
    obtain ⟨m, rfl⟩ : ∃ m, maxA = m + 1 := ⟨maxA - 1, by omega⟩
    unfold retryWithBackoff
    simp [retryGo, hop, hperm]
  · intro op errAt maxA i M b hmax hop hnp
    obtain ⟨m, rfl⟩ : ∃ m, maxA = m + 1 := ⟨maxA - 1, by omega⟩
    unfold retryWithBackoff
    rw [retryGo_allFail op errAt i M b hop hnp m 1 (by omega)]
    have : 1 + m = m + 1 := Nat.add_comm 1 m
    rw [this]
    simp
  · intro op errAt v maxA i M b j hj hjmax hop hnp hok
    obtain ⟨m, rfl⟩ : ∃ m, maxA = m + 1 := ⟨maxA - 1, by omega⟩
    unfold retryWithBackoff
    rw [retryGo_firstSuccess op errAt v i M b m 1 j (by omega) (by omega) (by omega) hop hnp hok]
    simp only [Nat.sub_self, Nat.zero_add, Nat.sub_add_cancel hj]

/-- C4 counterexample: with `maxAttempts = 0` the loop body never runs, so a
PERMANENT-failing operation is invoked `0` times (not once) and the code throws
`lastError!` — which is `undefined`, not the operation's error. -/
theorem C4_retryWithBackoff_counterexample :
    ¬ ((retryWithBackoff (fun _ => Except.error (JSError.classified ErrorType.PERMANENT "Erro 404"))
          0 1000 10000 2 : Except JSError Nat × Nat × List Nat).2.1 = 1 ∧
       (retryWithBackoff (fun _ => Except.error (JSError.classified ErrorType.PERMANENT "Erro 404"))
          0 1000 10000 2 : Except JSError Nat × Nat × List Nat).1 =
         Except.error (JSError.classified ErrorType.PERMANENT "Erro 404")) := by
  intro h
  have h0 : (retryWithBackoff (fun _ => Except.error (JSError.classified ErrorType.PERMANENT "Erro 404"))
      0 1000 10000 2 : Except JSError Nat × Nat × List Nat).2.1 = 0 := rfl
  rw [h0] at h
  exact absurd h.1 (by decide)

/-- C4 witness: a temporary error that never succeeds, with `maxAttempts = 3`,
`initialDelay = 1000`, `maxDelay = 10000`, `backoffMultiplier = 2`: three
invocations, the error is rethrown, and the two inter-attempt delays are
`1000` and `2000` ms. -/
theorem C4_retryWithBackoff_behaviour_witness :
    retryWithBackoff (α := Nat) (fun _ => Except.error (JSError.classified ErrorType.TEMPORARY "t"))
        3 1000 10000 2 =
      (Except.error (JSError.classified ErrorType.TEMPORARY "t"), 3, [1000, 2000]) := by
  have h := (C4_retryWithBackoff_behaviour (α := Nat)).2.1
    (fun _ => Except.error (JSError.classified ErrorType.TEMPORARY "t"))
    (fun _ => JSError.classified ErrorType.TEMPORARY "t") 3 1000 10000 2
    (by decide) (fun _ => rfl) (fun _ => rfl)
  rw [h]
  rfl

/-- On a cache miss with an acquisition already in flight, every arrival
attaches to that same promise and the state does not change. -/
theorem runArrivals_inFlight (now q : Nat) (s : TokenState)
    (hmiss : cacheMiss now s = true) (hq : s.tokenPromise = some q) :
    ∀ ps : List Nat, runArrivals now ps s = (ps.map fun _ => TokenCallResult.awaited q, s) := by
  intro ps
  induction ps with
  | nil => simp [runArrivals]
  | cons p ps ih =>
    have hstep : getValidToken now p s = (TokenCallResult.awaited q, s) := by
      unfold getValidToken
      unfold cacheMiss at hmiss
      match hcache : s.tokenCache with
      | some (tok, exp) =>
        rw [hcache] at hmiss
        simp only [hcache, hq]
        split
        · simp_all
        · rfl
      | none => simp [hcache, hq]
    simp [runArrivals, hstep, ih]

/-- C2: single-flight.  During a cache miss with no acquisition in flight, a
burst of concurrent callers makes exactly one upstream authentication request:
the first caller starts it and every later caller awaits that same pending
promise. -/
theorem C2_getValidToken_single_flight (now p : Nat) (ps : List Nat) (s : TokenState)
    (hmiss : cacheMiss now s = true) (hnone : s.tokenPromise = none) :
    (runArrivals now (p :: ps) s).1 =
      TokenCallResult.started p :: (ps.map fun _ => TokenCallResult.awaited p) ∧
    upstreamCalls (runArrivals now (p :: ps) s).1 = 1 := by
  have hstep : getValidToken now p s =
      (TokenCallResult.started p, { s with tokenPromise := some p }) := by
    unfold getValidToken
    unfold cacheMiss at hmiss
    match hcache : s.tokenCache with
    | some (tok, exp) =>
      rw [hcache] at hmiss
      simp only [hcache, hnone]
      split
      · simp_all
      · rfl
    | none => simp [hcache, hnone]
  have hmiss' : cacheMiss now { s with tokenPromise := some p } = true := by
    unfold cacheMiss at hmiss ⊢
    exact hmiss
  have hrest := runArrivals_inFlight now p { s with tokenPromise := some p } hmiss' rfl ps
  constructor
  · simp [runArrivals, hstep, hrest]
  · simp only [runArrivals, hstep, hrest, upstreamCalls]
    simp [List.filter_map, Function.comp]

/-- C2 witness: an empty cache, no in-flight promise, three concurrent
callers: the first starts the only upstream call, the other two await it. -/
theorem C2_getValidToken_single_flight_witness :
    (runArrivals 0 [7, 8, 9] ⟨none, none⟩).1 =
      [TokenCallResult.started 7, TokenCallResult.awaited 7, TokenCallResult.awaited 7] ∧
    upstreamCalls (runArrivals 0 [7, 8, 9] ⟨none, none⟩).1 = 1 := by
  have h := C2_getValidToken_single_flight 0 7 [8, 9] ⟨none, none⟩ rfl rfl
  exact ⟨by rw [h.1]; rfl, h.2⟩

/-! ### Carrier client theorems -/

/-- C1: `trackCorreios` propagates an error to its caller if and only if the
retried lookup failed with a TEMPORARY `ClassifiedError`; every terminal
failure (PERMANENT or unclassified, including the internal
`'Objeto não encontrado'` throw) is turned into the synthesized
`"Erro na consulta"` result with exactly one explanatory event. -/
theorem C1_trackCorreios_error_propagation (nowIso : String)
    (op : Nat → Except JSError CorreiosApiResponse) :
    (∀ e, (retryWithBackoff op 3 1000 10000 2).1 = Except.error e →
       e.isTemporaryClassified = true → trackCorreios nowIso op = Except.error e) ∧
    (∀ e, (retryWithBackoff op 3 1000 10000 2).1 = Except.error e →
       e.isTemporaryClassified = false →
       trackCorreios nowIso op =
         Except.ok { status := "Erro na consulta", events := [lookupErrorEvent nowIso e] }) ∧
    (∀ e, trackCorreios nowIso op = Except.error e →
       (retryWithBackoff op 3 1000 10000 2).1 = Except.error e ∧
         e.isTemporaryClassified = true) := by
  refine ⟨?_, ?_, ?_⟩
  · intro e hr htemp
    unfold trackCorreios
    rw [hr]
    simp [trackCorreiosTry, trackCorreiosCatch, htemp]
  · intro e hr htemp
    unfold trackCorreios
    rw [hr]
    simp [trackCorreiosTry, trackCorreiosCatch, htemp]
  · intro e h
    unfold trackCorreios at h
    cases hr : (retryWithBackoff op 3 1000 10000 2).1 with
    | error e' =>
      rw [hr] at h
      by_cases ht : e'.isTemporaryClassified
      · simp only [trackCorreiosTry, trackCorreiosCatch, ht, if_true] at h
        injection h with he
        subst he
        exact ⟨rfl, ht⟩
      · simp [trackCorreiosTry, trackCorreiosCatch, ht] at h
    | ok resp =>
      rw [hr] at h
      cases hobj : resp.objetos with
      | nil =>
        simp [trackCorreiosTry, hobj, trackCorreiosCatch, JSError.isTemporaryClassified] at h
      | cons obj rest =>
        cases hmsg : strOpt obj.mensagem with
        | some m =>
          simp [trackCorreiosTry, hobj, hmsg, trackCorreiosCatch] at h
        | none =>
          by_cases hev : (obj.eventos.getD []).isEmpty
          · simp [trackCorreiosTry, hobj, hmsg, hev, trackCorreiosCatch] at h
          · simp [trackCorreiosTry, hobj, hmsg, hev, trackCorreiosCatch] at h

/-- C1 witness: a lookup that fails with a TEMPORARY error on every attempt
is propagated to the caller unchanged. -/
theorem C1_trackCorreios_error_propagation_witness :
    trackCorreios "2025-01-01T00:00:00.000Z"
        (fun _ => Except.error (JSError.classified ErrorType.TEMPORARY "Erro 503")) =
      Except.error (JSError.classified ErrorType.TEMPORARY "Erro 503") :=
  (C1_trackCorreios_error_propagation "2025-01-01T00:00:00.000Z"
      (fun _ => Except.error (JSError.classified ErrorType.TEMPORARY "Erro 503"))).1
    (JSError.classified ErrorType.TEMPORARY "Erro 503") rfl rfl

/-- C9: a successful lookup whose first object carries a (truthy) `mensagem`
is a not-found report: the result is the `"Objeto não encontrado"` status with
exactly one synthesized not-found event; an object without `mensagem` and with
zero events yields the `"Etiqueta emitida"` status with an empty event list —
neither case fails. -/
theorem C9_trackCorreios_not_found_and_empty (nowIso m : String)
    (op : Nat → Except JSError CorreiosApiResponse) (resp : CorreiosApiResponse)
    (obj : CorreiosObjeto) (rest : List CorreiosObjeto)
    (hr : (retryWithBackoff op 3 1000 10000 2).1 = Except.ok resp)
    (hobj : resp.objetos = obj :: rest) :
    (strOpt obj.mensagem = some m →
      trackCorreios nowIso op =
        Except.ok { status := "Objeto não encontrado"
                    events := [{ description := m, date := nowIso,
                                 status := "Não encontrado", location := "Correios" }] }) ∧
    (strOpt obj.mensagem = none → obj.eventos.getD [] = [] →
      trackCorreios nowIso op =
        Except.ok { status := "Etiqueta emitida", events := [],
                    dtPrevista := obj.dtPrevista }) := by
  constructor
  · intro hmsg
    unfold trackCorreios
    rw [hr]
    simp [trackCorreiosTry, hobj, hmsg, trackCorreiosCatch]
  · intro hmsg hev
    unfold trackCorreios
    rw [hr]
    simp [trackCorreiosTry, hobj, hmsg, hev, trackCorreiosCatch]

/-- C9 witness: a not-found response (object with `mensagem`) and an
event-less object, both on concrete inputs. -/
theorem C9_trackCorreios_not_found_and_empty_witness :
    trackCorreios "2025-01-01T00:00:00.000Z"
        (fun _ => Except.ok { objetos := [c9NotFoundObjeto] }) =
      Except.ok { status := "Objeto não encontrado"
                  events := [{ description := "Objeto não encontrado na base de dados dos Correios."
                               date := "2025-01-01T00:00:00.000Z"
                               status := "Não encontrado"
                               location := "Correios" }] } ∧
    trackCorreios "2025-01-01T00:00:00.000Z"
        (fun _ => Except.ok { objetos := [c9EmptyObjeto] }) =
      Except.ok { status := "Etiqueta emitida", events := [], dtPrevista := some "2025-01-09" } := by
  constructor
  · exact (C9_trackCorreios_not_found_and_empty "2025-01-01T00:00:00.000Z"
      "Objeto não encontrado na base de dados dos Correios."
      (fun _ => Except.ok { objetos := [c9NotFoundObjeto] })
      { objetos := [c9NotFoundObjeto] } c9NotFoundObjeto [] rfl rfl).1 rfl
  · exact (C9_trackCorreios_not_found_and_empty "2025-01-01T00:00:00.000Z" ""
      (fun _ => Except.ok { objetos := [c9EmptyObjeto] })
      { objetos := [c9EmptyObjeto] } c9EmptyObjeto [] rfl rfl).2 rfl rfl

/-! ### Status classification theorems (C3) -/

/-- C3 (corrected).  The chain is ordered and first-match-wins, so the
pickup-window-expired conclusion needs the proviso that none of the three
delivered patterns checked *earlier* occurs in the description (see
`C3_status_classification_counterexample`).  Amended statement: (1) a
description containing the pickup-window-expired pattern and none of the three
delivered patterns classifies to the pickup-window-expired status; (2) a
description containing the pickup-window-expired pattern never classifies to
the generic `"Objeto não entregue"`; (3) a description containing
`"Objeto entregue ao destinatário"` (the first pattern) always classifies to
the delivered-to-recipient status; (4) a description matching no pattern falls
back to `"Objeto em transferência - por favor aguarde"`. -/
theorem C3_status_classification_amended (d : String) :
    (strIncludes d "Objeto não entregue - prazo de retirada encerrado" = true →
     strIncludes d "Objeto entregue ao destinatário" = false →
     strIncludes d "Objeto entregue ao remetente" = false →
     strIncludes d "Objeto entregue na Caixa de Correios Inteligente" = false →
     determineStatus d = "Objeto não entregue - prazo de retirada encerrado") ∧
    (strIncludes d "Objeto não entregue - prazo de retirada encerrado" = true →
     determineStatus d ≠ "Objeto não entregue") ∧
    (strIncludes d "Objeto entregue ao destinatário" = true →
     determineStatus d = "Objeto entregue ao destinatário") ∧
    ((∀ p ∈ statusPatterns, strIncludes d p = false) →
     determineStatus d = "Objeto em transferência - por favor aguarde") := by
  refine ⟨?_, ?_, ?_, ?_⟩
  · intro hprazo h1 h2 h3
    unfold determineStatus
    simp [h1, h2, h3, hprazo]
  · intro hprazo
    unfold determineStatus
    by_cases h1 : strIncludes d "Objeto entregue ao destinatário" <;>
      by_cases h2 : strIncludes d "Objeto entregue ao remetente" <;>
        by_cases h3 : strIncludes d "Objeto entregue na Caixa de Correios Inteligente" <;>
          simp [h1, h2, h3, hprazo]
  · intro h1
    unfold determineStatus
    simp [h1]
  · intro h
    simp only [statusPatterns, List.forall_mem_cons] at h
    obtain ⟨h1, h2, h3, h4, h5, h6, h7, h8, h9, h10, h11, h12, h13, h14, h15, h16, h17, h18,
      h19, h20, h21, h22, h23, h24, h25, h26, h27, h28, h29, h30, h31, -⟩ := h
    unfold determineStatus
    simp [h1, h2, h3, h4, h5, h6, h7, h8, h9, h10, h11, h12, h13, h14, h15, h16, h17, h18,
      h19, h20, h21, h22, h23, h24, h25, h26, h27, h28, h29, h30, h31]

/-- C3 counterexample: `c3BadDescription` contains the pickup-window-expired
pattern, yet (first-match-wins) it classifies to the delivered-to-recipient
status, not to the pickup-window-expired status — refuting the claim's
unconditional first conjunct. -/
theorem C3_status_classification_counterexample :
    strIncludes c3BadDescription "Objeto não entregue - prazo de retirada encerrado" = true ∧
    determineStatus c3BadDescription ≠ "Objeto não entregue - prazo de retirada encerrado" ∧
    determineStatus c3BadDescription = "Objeto entregue ao destinatário" := by
  refine ⟨by decide, by decide, by decide⟩

/-- C3 witness: the exact carrier descriptions from the spec's scenario. -/
theorem C3_status_classification_amended_witness :
    determineStatus "Objeto não entregue - prazo de retirada encerrado" =
      "Objeto não entregue - prazo de retirada encerrado" ∧
    determineStatus "Objeto entregue ao destinatário" = "Objeto entregue ao destinatário" ∧
    determineStatus "Aguardando pagamento do despacho postal" =
      "Objeto em transferência - por favor aguarde" := by
  refine ⟨?_, ?_, ?_⟩
  · exact (C3_status_classification_amended
      "Objeto não entregue - prazo de retirada encerrado").1 (by decide) (by decide) (by decide)
      (by decide)
  · exact (C3_status_classification_amended "Objeto entregue ao destinatário").2.2.1 (by decide)
  · exact (C3_status_classification_amended "Aguardando pagamento do despacho postal").2.2.2
      (by decide)

/-- If every new-side signature occurs in the old-side signature list and the
lengths agree, `hasNewEvents` reports no new information. -/
theorem hasNewEvents_eq_false_of_subset (f : String → String)
    (oldEvents newEvents : List TrackingEvent)
    (hlen : oldEvents.length = newEvents.length)
    (hsub : ∀ e ∈ newEvents,
      (oldEvents.map (createEventSignature f)).contains (createEventSignature f e) = true) :
    hasNewEvents f oldEvents newEvents = false := by
  unfold hasNewEvents
  rw [if_neg (by omega)]
  split
  · rfl
  · simp only [List.any_eq_false]
    intro e he
    simpa using hsub e he

/-- If a new-side signature is absent from the old-side signature list,
`hasNewEvents` reports new information. -/
theorem hasNewEvents_eq_true_of_missing (f : String → String)
    (oldEvents newEvents : List TrackingEvent) (e : TrackingEvent) (he : e ∈ newEvents)
    (hmiss : (oldEvents.map (createEventSignature f)).contains
      (createEventSignature f e) = false) :
    hasNewEvents f oldEvents newEvents = true := by
  unfold hasNewEvents
  by_cases hlen : oldEvents.length ≠ newEvents.length
  · rw [if_pos hlen]
  · rw [if_neg hlen]
    have hne : newEvents ≠ [] := by
      intro hnil
      rw [hnil] at he
      exact List.not_mem_nil e he
    rw [if_neg (by
      intro hand
      exact hne (List.eq_nil_of_length_eq_zero hand.2))]
    simp only [List.any_eq_true]
    refine ⟨e, he, ?_⟩
    simpa using hmiss

/-- C5 (corrected: the differ only tests new-side signatures against the
old-side set; see `C5_hasNewEvents_counterexample`).  Amended statement:
(1) equal length and identical signature sets (in any order) give `false`;
(2) differing lengths give `true`; (3) a new-side signature absent from the
old side gives `true`.  (An old-side signature absent from the new side does
*not* by itself give `true`.) -/
theorem C5_hasNewEvents_amended (f : String → String)
    (oldEvents newEvents : List TrackingEvent) :
    (oldEvents.length = newEvents.length →
      (∀ s, (oldEvents.map (createEventSignature f)).contains s =
            (newEvents.map (createEventSignature f)).contains s) →
      hasNewEvents f oldEvents newEvents = false) ∧
    (oldEvents.length ≠ newEvents.length → hasNewEvents f oldEvents newEvents = true) ∧
    (∀ e ∈ newEvents,
      (oldEvents.map (createEventSignature f)).contains (createEventSignature f e) = false →
      hasNewEvents f oldEvents newEvents = true) := by
  refine ⟨?_, ?_, ?_⟩
  · intro hlen hset
    apply hasNewEvents_eq_false_of_subset f oldEvents newEvents hlen
    intro e he
    have hmem : (newEvents.map (createEventSignature f)).contains
        (createEventSignature f e) = true := by
      simpa using ⟨e, he, rfl⟩
    rw [hset]
    exact hmem
  · intro hlen
    unfold hasNewEvents
    rw [if_pos hlen]
  · intro e he hmiss
    exact hasNewEvents_eq_true_of_missing f oldEvents newEvents e he hmiss

/-- C5 counterexample: `old = [A, B]`, `new = [A, A]` have equal length and
`B`'s signature is present on the old side and absent from the new side, yet
`hasNewEvents` returns `false` — refuting the claim's symmetric
"present on one side and absent from the other" clause. -/
theorem C5_hasNewEvents_counterexample :
    hasNewEvents (fun s => s) [c5EventA, c5EventB] [c5EventA, c5EventA] = false ∧
    ([c5EventA, c5EventB].map (createEventSignature (fun s => s))).contains
        (createEventSignature (fun s => s) c5EventB) = true ∧
    ([c5EventA, c5EventA].map (createEventSignature (fun s => s))).contains
        (createEventSignature (fun s => s) c5EventB) = false := by
  refine ⟨by decide, by decide, by decide⟩

/-- C5 witness: a new-side signature absent from the old side (conjunct 3 of
the amended claim) on concrete events. -/
theorem C5_hasNewEvents_amended_witness :
    hasNewEvents (fun s => s) [c5EventA] [c5EventB] = true :=
  (C5_hasNewEvents_amended (fun s => s) [c5EventA] [c5EventB]).2.2 c5EventB
    (by decide) (by decide)

/-- C7: the record's persisted state is written iff the lookup produced a
result (success, or the PERMANENT-synthesized `"Erro na consulta"` result)
and the status or the event set changed; a TEMPORARY failure skips the record
and an unchanged result leaves it untouched. -/
theorem C7_processRecord_frame (f : String → String) (currentStatus : String)
    (events : List TrackingEvent) (lookup : Except JSError CorreiosResponse) :
    (mutatesPersistedState (processRecord f currentStatus events lookup) = true ↔
      ∃ data, lookup = Except.ok data ∧
        (data.status != currentStatus || hasNewEvents f events data.events) = true) ∧
    (∀ e, lookup = Except.error e → e.isTemporaryClassified = true →
       processRecord f currentStatus events lookup = RecordAction.skippedTemporary) ∧
    (∀ data, lookup = Except.ok data →
       (data.status != currentStatus || hasNewEvents f events data.events) = false →
       processRecord f currentStatus events lookup = RecordAction.unchanged) ∧
    (∀ data, lookup = Except.ok data →
       (data.status != currentStatus || hasNewEvents f events data.events) = true →
       processRecord f currentStatus events lookup =
         RecordAction.updated data.status data.events data.dtPrevista) := by
  refine ⟨?_, ?_, ?_, ?_⟩
  · cases lookup with
    | ok data =>
      simp only [processRecord]
      split
      · simp_all [mutatesPersistedState]
      · simp_all [mutatesPersistedState]
    | error e =>
      simp only [processRecord]
      split <;> simp [mutatesPersistedState]
  · intro e he ht
    subst he
    simp [processRecord, ht]
  · intro data hd hfalse
    subst hd
    simp [processRecord, hfalse]
  · intro data hd htrue
    subst hd
    simp [processRecord, htrue]

/-- C7 witness: a changed status with a new event updates the record; a
TEMPORARY failure skips it. -/
theorem C7_processRecord_frame_witness :
    processRecord (fun s => s) "Etiqueta emitida" []
        (Except.ok { status := "Objeto postado", events := [c5EventA] }) =
      RecordAction.updated "Objeto postado" [c5EventA] none ∧
    processRecord (fun s => s) "Etiqueta emitida" []
        (Except.error (JSError.classified ErrorType.TEMPORARY "Erro 503")) =
      RecordAction.skippedTemporary := by
  constructor
  · exact (C7_processRecord_frame (fun s => s) "Etiqueta emitida" []
      (Except.ok { status := "Objeto postado", events := [c5EventA] })).2.2.2
      { status := "Objeto postado", events := [c5EventA] } rfl (by decide)
  · exact (C7_processRecord_frame (fun s => s) "Etiqueta emitida" []
      (Except.error (JSError.classified ErrorType.TEMPORARY "Erro 503"))).2.1
      (JSError.classified ErrorType.TEMPORARY "Erro 503") rfl rfl

/-- C8: the consecutive-failure counter is reset by a success, untouched by a
temporary-error skip, and incremented by a permanent-or-unknown failure;
whenever the incremented counter reaches the threshold 3 the job pauses
`60000 * min(counter - 3 + 1, 5)` ms before the next record; three
consecutive permanent-class failures pause the batch for `60000` ms before
the fourth record, and a following success resets the counter to zero. -/
theorem C8_consecutive_failures (c : Nat) :
    failureStep c RecordOutcome.success = (0, none) ∧
    failureStep c RecordOutcome.tempError = (c, none) ∧
    (failureStep c RecordOutcome.permError).1 = c + 1 ∧
    (3 ≤ c + 1 → failureStep c RecordOutcome.permError =
      (c + 1, some (60000 * min (c + 1 - 3 + 1) 5))) ∧
    (c + 1 < 3 → failureStep c RecordOutcome.permError = (c + 1, none)) ∧
    runOutcomes 0 [RecordOutcome.permError, RecordOutcome.permError, RecordOutcome.permError,
        RecordOutcome.success] = (0, [none, none, some 60000, none]) := by
  refine ⟨rfl, rfl, ?_, ?_, ?_, by decide⟩
  · simp only [failureStep]
    split <;> rfl
  · intro h
    simp only [failureStep, MAX_CONSECUTIVE_FAILURES, FAILURE_WAIT_TIME]
    rw [if_pos h]
  · intro h
    simp only [failureStep, MAX_CONSECUTIVE_FAILURES, FAILURE_WAIT_TIME]
    rw [if_neg (by omega)]

/-- C8 witness: the third consecutive permanent failure (counter 2 → 3)
triggers the base 60-second pause. -/
theorem C8_consecutive_failures_witness :
    failureStep 2 RecordOutcome.permError = (3, some 60000) := by
  have h := (C8_consecutive_failures 2).2.2.2.1 (by decide)
  rw [h]
  rfl

/-- C6: no notification for `pickup-in-point` regardless of status; no
notification for any status in the fixed silent subset; a notification is
dispatched for every other (delivery-channel, non-silent-status) event. -/
theorem C6_notification_policy :
    (∀ s : TrackingStatus, publishSendsEmail DeliveryChannel.PICKUP_IN_POINT s = false) ∧
    (∀ (ch : DeliveryChannel) (s : TrackingStatus),
      SILENT_STATUSES.contains s.text = true → publishSendsEmail ch s = false) ∧
    (∀ s : TrackingStatus, SILENT_STATUSES.contains s.text = false →
      publishSendsEmail DeliveryChannel.DELIVERY s = true) := by
  refine ⟨?_, ?_, ?_⟩
  · intro s
    simp [publishSendsEmail]
  · intro ch s h
    cases ch <;> simp only [publishSendsEmail, h] <;> simp
  · intro s h
    simp only [publishSendsEmail, h]
    simp

/-- C6 witness: pickup-in-point is always silent; `ENTREGUE_REMETENTE` is a
silent status even on the delivery channel; a delivered-to-recipient event on
the delivery channel notifies. -/
theorem C6_notification_policy_witness :
    publishSendsEmail DeliveryChannel.PICKUP_IN_POINT TrackingStatus.ENTREGUE = false ∧
    publishSendsEmail DeliveryChannel.DELIVERY TrackingStatus.ENTREGUE_REMETENTE = false ∧
    publishSendsEmail DeliveryChannel.DELIVERY TrackingStatus.ENTREGUE = true :=
  ⟨C6_notification_policy.1 TrackingStatus.ENTREGUE,
   C6_notification_policy.2.1 DeliveryChannel.DELIVERY TrackingStatus.ENTREGUE_REMETENTE
     (by decide),
   C6_notification_policy.2.2 TrackingStatus.ENTREGUE (by decide)⟩

/-- Agreement on the seven normalized fields forces equal signatures. -/
theorem createEventSignature_eq_of_agree (f : String → String) (a b : TrackingEvent)
    (h : sevenFieldsAgree f a b) :
    createEventSignature f a = createEventSignature f b := by
  obtain ⟨h1, h2, h3, h4, h5, h6, h7⟩ := h
  unfold createEventSignature
  rw [h1, h2, h3, h4, h5, h6, h7]

/-- Pairwise agreement on the seven fields forces equal signature lists. -/
theorem map_signature_eq_of_forall₂ (f : String → String)
    (oldEvents newEvents : List TrackingEvent)
    (h : List.Forall₂ (sevenFieldsAgree f) oldEvents newEvents) :
    oldEvents.map (createEventSignature f) = newEvents.map (createEventSignature f) := by
  induction h with
  | nil => rfl
  | cons hab _ ih =>
    simp only [List.map_cons, ih, createEventSignature_eq_of_agree f _ _ hab]

/-- C10: the event signature depends on exactly the seven normalized fields,
so event lists agreeing pairwise on them — whatever their `status` copies or
structured `unitAddress` — carry no new information for `hasNewEvents`, and,
when the looked-up status equals the record's current status, such
differences alone leave the per-record action at `unchanged`: no persistence
write and no notification dispatch. -/
theorem C10_signature_seven_fields (f : String → String) :
    (∀ a b : TrackingEvent, sevenFieldsAgree f a b →
      createEventSignature f a = createEventSignature f b) ∧
    (∀ oldEvents newEvents : List TrackingEvent,
      List.Forall₂ (sevenFieldsAgree f) oldEvents newEvents →
      hasNewEvents f oldEvents newEvents = false) ∧
    (∀ (currentStatus : String) (oldEvents : List TrackingEvent) (resp : CorreiosResponse),
      List.Forall₂ (sevenFieldsAgree f) oldEvents resp.events →
      resp.status = currentStatus →
      processRecord f currentStatus oldEvents (Except.ok resp) = RecordAction.unchanged) := by
  have hfalse : ∀ oldEvents newEvents : List TrackingEvent,
      List.Forall₂ (sevenFieldsAgree f) oldEvents newEvents →
      hasNewEvents f oldEvents newEvents = false := by
    intro oldEvents newEvents h
    have hmap := map_signature_eq_of_forall₂ f oldEvents newEvents h
    apply hasNewEvents_eq_false_of_subset f oldEvents newEvents
      (List.Forall₂.length_eq h)
    intro e he
    rw [hmap]
    simpa using ⟨e, he, rfl⟩
  refine ⟨createEventSignature_eq_of_agree f, hfalse, ?_⟩
  intro currentStatus oldEvents resp hagree hstatus
  simp only [processRecord, hfalse oldEvents resp.events hagree, hstatus]
  simp

/-- C10 witness: `c5EventA` and `c10EventA` differ only in `status` and
`unitAddress`; the lists compare as carrying no new information and the
per-record action with an unchanged status is `unchanged`. -/
theorem C10_signature_seven_fields_witness :
    hasNewEvents (fun s => s) [c5EventA] [c10EventA] = false ∧
    processRecord (fun s => s) "Objeto postado" [c5EventA]
        (Except.ok { status := "Objeto postado", events := [c10EventA] }) =
      RecordAction.unchanged := by
  have hagree : List.Forall₂ (sevenFieldsAgree (fun s => s)) [c5EventA] [c10EventA] := by
    refine List.Forall₂.cons ?_ List.Forall₂.nil
    exact ⟨rfl, rfl, rfl, rfl, rfl, rfl, rfl⟩
  constructor
  · exact (C10_signature_seven_fields (fun s => s)).2.1 [c5EventA] [c10EventA] hagree
  · exact (C10_signature_seven_fields (fun s => s)).2.2 "Objeto postado" [c5EventA]
      { status := "Objeto postado", events := [c10EventA] } hagree rfl

end TrackingApi
